import Mathlib

/-!
Verification of the google-contacts-backup synchronization engine.

This file gives a shallow embedding of the pure core of the repository:
the record sanitizer and membership remapper (`cleanContactForCreation`,
`clearFieldMetadata`), the batch partitioning of the mutation path
(`DeleteAllContacts`, `CreateContacts`), the pagination loop
(`ListContacts`, `ListGroups`), the best-effort group deletion
(`DeleteUserGroups`), the structured archive store (`SaveToFile`,
`LoadBackupFile`, `NewBackupFile`, `AddContact`, `AddGroup`) and the
tabular (CSV) transcoder (`countMaxFields`, `buildCSVHeaders`,
`contactToCSVRow`, `SaveToCSV`).  Effectful boundaries (the remote
service, the file system) are modelled as explicit inputs: a pagination
run receives the page sequence the service would serve, a load receives
the parsed content of the file (or `none` for an unreadable file), and
per-item deletion outcomes are an oracle function.
-/

namespace GCB

/-- Service-assigned provenance/verification stamp carried by each entry of a
repeatable field group (the model of `people.FieldMetadata`; the program only
distinguishes present (`some`) from cleared (`none`)). -/
structure FieldMetadata where
  primary : Bool := false
  verified : Bool := false
deriving DecidableEq, Repr

/-- Top-level person metadata (the model of `people.PersonMetadata`). -/
structure PersonMetadata where
  deleted : Bool := false
deriving DecidableEq, Repr

/-- One entry of the `names` field group (`people.Name`), restricted to the
fields the program reads and writes. -/
structure Name where
  honorificPfx : String := ""
  givenName : String := ""
  middleName : String := ""
  familyName : String := ""
  honorificSfx : String := ""
  phoneticGivenName : String := ""
  phoneticMiddleName : String := ""
  phoneticFamilyName : String := ""
  metadata : Option FieldMetadata := none
deriving DecidableEq, Repr

/-- One entry of the `nicknames` field group (`people.Nickname`). -/
structure Nickname where
  value : String := ""
  metadata : Option FieldMetadata := none
deriving DecidableEq, Repr

/-- One entry of the `fileAses` field group (`people.FileAs`). -/
structure FileAs where
  value : String := ""
  metadata : Option FieldMetadata := none
deriving DecidableEq, Repr

/-- One entry of the `emailAddresses` field group (`people.EmailAddress`). -/
structure EmailAddress where
  type : String := ""
  value : String := ""
  metadata : Option FieldMetadata := none
deriving DecidableEq, Repr

/-- One entry of the `phoneNumbers` field group (`people.PhoneNumber`). -/
structure PhoneNumber where
  type : String := ""
  value : String := ""
  metadata : Option FieldMetadata := none
deriving DecidableEq, Repr

/-- One entry of the `addresses` field group (`people.Address`). -/
structure Address where
  type : String := ""
  streetAddress : String := ""
  extendedAddress : String := ""
  city : String := ""
  region : String := ""
  postalCode : String := ""
  country : String := ""
  poBox : String := ""
  metadata : Option FieldMetadata := none
deriving DecidableEq, Repr

/-- One entry of the `organizations` field group (`people.Organization`). -/
structure Organization where
  name : String := ""
  title : String := ""
  department : String := ""
  metadata : Option FieldMetadata := none
deriving DecidableEq, Repr

/-- A calendar date (`people.Date`; year 0 encodes a year-less date). -/
structure GDate where
  year : Int := 0
  month : Int := 0
  day : Int := 0
deriving DecidableEq, Repr

/-- One entry of the `birthdays` field group (`people.Birthday`). -/
structure Birthday where
  date : Option GDate := none
  metadata : Option FieldMetadata := none
deriving DecidableEq, Repr

/-- One entry of the `biographies` field group (`people.Biography`; the CSV
notes column). -/
structure Biography where
  value : String := ""
  metadata : Option FieldMetadata := none
deriving DecidableEq, Repr

/-- One entry of the `urls` field group (`people.Url`). -/
structure Url where
  type : String := ""
  value : String := ""
  metadata : Option FieldMetadata := none
deriving DecidableEq, Repr

/-- One entry of the `userDefined` field group (`people.UserDefined`). -/
structure UserDefined where
  key : String := ""
  value : String := ""
  metadata : Option FieldMetadata := none
deriving DecidableEq, Repr

/-- One entry of the `events` field group (`people.Event`). -/
structure Event where
  type : String := ""
  date : Option GDate := none
  metadata : Option FieldMetadata := none
deriving DecidableEq, Repr

/-- One entry of the `relations` field group (`people.Relation`). -/
structure Relation where
  type : String := ""
  person : String := ""
  metadata : Option FieldMetadata := none
deriving DecidableEq, Repr

/-- Generic entry shape for the remaining repeatable field groups the program
only copies and metadata-clears (occupations, genders, imClients, interests,
sipAddresses, calendarUrls, externalIds, locales, locations, miscKeywords,
clientData, photos): a payload value plus the metadata stamp. -/
structure GenericField where
  value : String := ""
  metadata : Option FieldMetadata := none
deriving DecidableEq, Repr

/-- Reference from a record to a contact group by resource name
(`people.ContactGroupMembership`). -/
structure ContactGroupMembership where
  contactGroupResourceName : String := ""
deriving DecidableEq, Repr

/-- One entry of the `memberships` field group (`people.Membership`): an
optional contact-group reference plus the metadata stamp.  A membership with
no group reference models a non-contact-group membership (for example a
domain membership). -/
structure Membership where
  contactGroupMembership : Option ContactGroupMembership := none
  metadata : Option FieldMetadata := none
deriving DecidableEq, Repr

/-- A contact record (`people.Person`), restricted to the fields the program
reads and writes. -/
structure Person where
  resourceName : String := ""
  metadata : Option PersonMetadata := none
  names : List Name := []
  nicknames : List Nickname := []
  fileAses : List FileAs := []
  emailAddresses : List EmailAddress := []
  phoneNumbers : List PhoneNumber := []
  addresses : List Address := []
  organizations : List Organization := []
  birthdays : List Birthday := []
  biographies : List Biography := []
  urls : List Url := []
  userDefined : List UserDefined := []
  events : List Event := []
  relations : List Relation := []
  memberships : List Membership := []
  occupations : List GenericField := []
  genders : List GenericField := []
  imClients : List GenericField := []
  interests : List GenericField := []
  sipAddresses : List GenericField := []
  calendarUrls : List GenericField := []
  externalIds : List GenericField := []
  locales : List GenericField := []
  locations : List GenericField := []
  miscKeywords : List GenericField := []
  clientData : List GenericField := []
  photos : List GenericField := []
deriving DecidableEq, Repr

/-- A contact group (`people.ContactGroup`), restricted to the fields the
program reads and writes. -/
structure ContactGroup where
  resourceName : String := ""
  name : String := ""
  groupType : String := ""
deriving DecidableEq, Repr

/-! ## Directory client (contacts/client.go): constants and batching -/

/-- Maximum number of contacts deleted in one batch (`batchDeleteSize`). -/
def batchDeleteSize : Nat := 500

/-- Maximum number of contacts created in one batch (`batchCreateSize`). -/
def batchCreateSize : Nat := 200

/-- Partition a list into consecutive chunks of size `B` (last chunk may be
shorter), mirroring the Go loop `for i := 0; i < len(l); i += B` with slice
`l[i:min(i+B, len(l))]`. -/
def chunks (B : Nat) : List α → List (List α)
  | [] => []
  | x :: xs => (x :: xs.take (B - 1)) :: chunks B (xs.drop (B - 1))
termination_by l => l.length
decreasing_by
  simp only [List.length_cons]
  have := List.length_drop (B - 1) xs
  omega

/-- The resource names `DeleteAllContacts` extracts before batching: every
non-empty `ResourceName` of the fetched contacts, in order. -/
def deleteResourceNames (contacts : List Person) : List String :=
  (contacts.map Person.resourceName).filter (fun r => r != "")

/-- The batch-delete requests issued by `DeleteAllContacts` (client.go lines
148-171): the non-empty resource names partitioned into chunks of
`batchDeleteSize`.  An empty contact list yields no batches (the early
return at line 132). -/
def DeleteAllContactsBatches (contacts : List Person) : List (List String) :=
  chunks batchDeleteSize (deleteResourceNames contacts)

/-- The batch-create requests issued by `CreateContacts` (client.go lines
271-306): the contact list partitioned into chunks of `batchCreateSize`. -/
def CreateContactsBatches (contacts : List Person) : List (List Person) :=
  chunks batchCreateSize contacts

/-! ## Directory client: pagination -/

/-- One page of a paginated list response: its items and the continuation
cursor (`NextPageToken`, empty when this is the last page). -/
structure Page (α : Type) where
  items : List α
  nextPageToken : String
deriving DecidableEq, Repr

/-- The pagination loop shared by `ListContacts` and `ListGroups`: append the
current page's items; stop when the page carries an empty continuation
cursor, otherwise fetch the next page.  The input is the sequence of pages
the service serves to the successive requests. -/
def listPaginated : List (Page α) → List α
  | [] => []
  | p :: rest => p.items ++ (if p.nextPageToken = "" then [] else listPaginated rest)

/-- `ListContacts` (client.go lines 49-89) as a function of the served pages. -/
def ListContacts (pages : List (Page Person)) : List Person :=
  listPaginated pages

/-- `ListGroups` (client.go lines 92-121) as a function of the served pages. -/
def ListGroups (pages : List (Page ContactGroup)) : List ContactGroup :=
  listPaginated pages

/-- A served page sequence is well formed when it is non-empty, every page
before the last carries a non-empty continuation cursor, and the last page
carries the empty cursor. -/
def chainOk : List (Page α) → Bool
  | [] => false
  | [p] => p.nextPageToken == ""
  | p :: rest => p.nextPageToken != "" && chainOk rest

/-! ## Directory client: best-effort group deletion -/

/-- `DeleteUserGroups` (client.go lines 178-220), with the fetch outcome and
the per-group deletion outcomes as explicit inputs.  A fetch error is
returned as-is; otherwise the groups are filtered to the user-created kind
and deleted one at a time: a failed deletion is only logged (the loop
continues), a successful one increments the count, and the function always
returns successfully with the best-effort count. -/
def DeleteUserGroups (fetched : Except String (List ContactGroup))
    (deleteOk : ContactGroup → Bool) : Except String Nat :=
  match fetched with
  | .error e => .error e
  | .ok groups =>
    let userGroups := groups.filter (fun g => g.groupType == "USER_CONTACT_GROUP")
    .ok (userGroups.foldl (fun deleted g => if deleteOk g then deleted + 1 else deleted) 0)

/-! ## Record sanitizer (client.go lines 312-450) -/

/-- Structural model of Go `strings.HasPrefix` (and of `String.startsWith`):
`strStartsWith s q` holds when `q` is a prefix of `s`. -/
def strStartsWith (s q : String) : Bool :=
  q.data.isPrefixOf s.data

/-- The system-group resource-name allowlist used as string prefixes by
`cleanContactForCreation` (client.go lines 348-355).  Note it does not
include `contactGroups/blocked`. -/
def systemGroupPrefixList : List String :=
  ["contactGroups/myContacts", "contactGroups/starred", "contactGroups/chatBuddies",
   "contactGroups/all", "contactGroups/friends", "contactGroups/family",
   "contactGroups/coworkers"]

/-- Membership handling inside `cleanContactForCreation` (client.go lines
343-368), for one membership.  Returns the membership to include in the
sanitized record, or `none` when it is dropped. -/
def processMembership (groupMap : List (String × String)) (m : Membership) :
    Option Membership :=
  match m.contactGroupMembership with
  | none => none
  | some cgm =>
    let oldResourceName := cgm.contactGroupResourceName
    if strStartsWith oldResourceName "contactGroups/" &&
        !(strStartsWith oldResourceName "contactGroups/myContacts") &&
        !(strStartsWith oldResourceName "contactGroups/starred") &&
        !(strStartsWith oldResourceName "contactGroups/chatBuddies") &&
        !(strStartsWith oldResourceName "contactGroups/all") &&
        !(strStartsWith oldResourceName "contactGroups/friends") &&
        !(strStartsWith oldResourceName "contactGroups/family") &&
        !(strStartsWith oldResourceName "contactGroups/coworkers") then
      match groupMap.lookup oldResourceName with
      | some newResourceName => some ⟨some ⟨newResourceName⟩, none⟩
      | none => none
    else if oldResourceName = "contactGroups/myContacts" then
      some m
    else
      none

/-- `clearFieldMetadata` (client.go lines 380-450): clear the metadata stamp
on every entry of the 23 field groups the function loops over.  It does not
touch `memberships` (nor `fileAses` or `photos`, which the sanitizer never
copies). -/
def clearFieldMetadata (p : Person) : Person :=
  { p with
    names := p.names.map (fun e => { e with metadata := none }),
    nicknames := p.nicknames.map (fun e => { e with metadata := none }),
    emailAddresses := p.emailAddresses.map (fun e => { e with metadata := none }),
    phoneNumbers := p.phoneNumbers.map (fun e => { e with metadata := none }),
    addresses := p.addresses.map (fun e => { e with metadata := none }),
    organizations := p.organizations.map (fun e => { e with metadata := none }),
    birthdays := p.birthdays.map (fun e => { e with metadata := none }),
    biographies := p.biographies.map (fun e => { e with metadata := none }),
    urls := p.urls.map (fun e => { e with metadata := none }),
    userDefined := p.userDefined.map (fun e => { e with metadata := none }),
    events := p.events.map (fun e => { e with metadata := none }),
    relations := p.relations.map (fun e => { e with metadata := none }),
    occupations := p.occupations.map (fun e => { e with metadata := none }),
    genders := p.genders.map (fun e => { e with metadata := none }),
    imClients := p.imClients.map (fun e => { e with metadata := none }),
    interests := p.interests.map (fun e => { e with metadata := none }),
    sipAddresses := p.sipAddresses.map (fun e => { e with metadata := none }),
    calendarUrls := p.calendarUrls.map (fun e => { e with metadata := none }),
    externalIds := p.externalIds.map (fun e => { e with metadata := none }),
    locales := p.locales.map (fun e => { e with metadata := none }),
    locations := p.locations.map (fun e => { e with metadata := none }),
    miscKeywords := p.miscKeywords.map (fun e => { e with metadata := none }),
    clientData := p.clientData.map (fun e => { e with metadata := none }) }

/-- `cleanContactForCreation` (client.go lines 312-377): build a fresh record
carrying only the creatable field groups (no resource name, no top-level
metadata, no fileAses, no photos), rewrite the memberships through
`processMembership`, then clear per-entry metadata with
`clearFieldMetadata`. -/
def cleanContactForCreation (contact : Person) (groupMap : List (String × String)) :
    Person :=
  let newPerson : Person :=
    { names := contact.names,
      nicknames := contact.nicknames,
      emailAddresses := contact.emailAddresses,
      phoneNumbers := contact.phoneNumbers,
      addresses := contact.addresses,
      organizations := contact.organizations,
      birthdays := contact.birthdays,
      biographies := contact.biographies,
      urls := contact.urls,
      userDefined := contact.userDefined,
      events := contact.events,
      relations := contact.relations,
      occupations := contact.occupations,
      genders := contact.genders,
      imClients := contact.imClients,
      interests := contact.interests,
      sipAddresses := contact.sipAddresses,
      calendarUrls := contact.calendarUrls,
      externalIds := contact.externalIds,
      locales := contact.locales,
      locations := contact.locations,
      miscKeywords := contact.miscKeywords,
      clientData := contact.clientData,
      memberships := contact.memberships.filterMap (processMembership groupMap) }
  clearFieldMetadata newPerson

/-! ## Backup store (models/backup.go): structured serialization

The JSON content of an archive file is modelled as an explicit tree; a file
read is an `Option Json` (`none` for an unreadable file).  The encoder
mirrors `json.MarshalIndent` on the `BackupFile` struct and its nested
records (indentation and key order are representation details the tree
abstracts away); the decoder mirrors `json.Unmarshal`'s leniency: an absent
or `null` member leaves a field at its zero value, an unknown member is
ignored, and a member of the wrong shape is a parse error. -/

/-- A JSON document. -/
inductive Json where
  | null
  | bool (b : Bool)
  | num (n : Int)
  | str (s : String)
  | arr (xs : List Json)
  | obj (fields : List (String × Json))

/-- Current backup format version (`BackupVersion`). -/
def BackupVersion : String := "1.0"

/-- The persisted backup unit (`models.BackupFile`). -/
structure BackupFile where
  version : String := ""
  createdAt : String := ""
  contactCount : Int := 0
  groupCount : Int := 0
  contacts : List Person := []
  groups : List ContactGroup := []
deriving DecidableEq, Repr

/-- `NewBackupFile` (backup.go lines 40-47): a fresh archive stamped with the
current version and creation time, with empty lists and zero counts. -/
def NewBackupFile (now : String) : BackupFile :=
  { version := BackupVersion, createdAt := now, contactCount := 0, groupCount := 0,
    contacts := [], groups := [] }

/-- `AddContact` (backup.go lines 50-53): append a contact and set the count
to the new list length. -/
def BackupFile.AddContact (b : BackupFile) (contact : Person) : BackupFile :=
  let cs := b.contacts ++ [contact]
  { b with contacts := cs, contactCount := (cs.length : Int) }

/-- `AddGroup` (backup.go lines 56-59): append a group and set the count to
the new list length. -/
def BackupFile.AddGroup (b : BackupFile) (group : ContactGroup) : BackupFile :=
  let gs := b.groups ++ [group]
  { b with groups := gs, groupCount := (gs.length : Int) }

/-- Encode an optional field metadata stamp (`nil` pointer becomes `null`). -/
def metaToJson : Option FieldMetadata → Json
  | none => .null
  | some m => .obj [("primary", .bool m.primary), ("verified", .bool m.verified)]

/-- Encode optional person metadata. -/
def personMetaToJson : Option PersonMetadata → Json
  | none => .null
  | some m => .obj [("deleted", .bool m.deleted)]

/-- Encode an optional date. -/
def dateToJson : Option GDate → Json
  | none => .null
  | some d => .obj [("year", .num d.year), ("month", .num d.month), ("day", .num d.day)]

/-- Encode one name entry. -/
def Name.toJson (e : Name) : Json :=
  .obj [("honorificPrefix", .str e.honorificPfx), ("givenName", .str e.givenName),
        ("middleName", .str e.middleName), ("familyName", .str e.familyName),
        ("honorificSuffix", .str e.honorificSfx),
        ("phoneticGivenName", .str e.phoneticGivenName),
        ("phoneticMiddleName", .str e.phoneticMiddleName),
        ("phoneticFamilyName", .str e.phoneticFamilyName),
        ("metadata", metaToJson e.metadata)]

/-- Encode one nickname entry. -/
def Nickname.toJson (e : Nickname) : Json :=
  .obj [("value", .str e.value), ("metadata", metaToJson e.metadata)]

/-- Encode one file-as entry. -/
def FileAs.toJson (e : FileAs) : Json :=
  .obj [("value", .str e.value), ("metadata", metaToJson e.metadata)]

/-- Encode one email entry. -/
def EmailAddress.toJson (e : EmailAddress) : Json :=
  .obj [("type", .str e.type), ("value", .str e.value), ("metadata", metaToJson e.metadata)]

/-- Encode one phone entry. -/
def PhoneNumber.toJson (e : PhoneNumber) : Json :=
  .obj [("type", .str e.type), ("value", .str e.value), ("metadata", metaToJson e.metadata)]

/-- Encode one address entry. -/
def Address.toJson (e : Address) : Json :=
  .obj [("type", .str e.type), ("streetAddress", .str e.streetAddress),
        ("extendedAddress", .str e.extendedAddress), ("city", .str e.city),
        ("region", .str e.region), ("postalCode", .str e.postalCode),
        ("country", .str e.country), ("poBox", .str e.poBox),
        ("metadata", metaToJson e.metadata)]

/-- Encode one organization entry. -/
def Organization.toJson (e : Organization) : Json :=
  .obj [("name", .str e.name), ("title", .str e.title),
        ("department", .str e.department), ("metadata", metaToJson e.metadata)]

/-- Encode one birthday entry. -/
def Birthday.toJson (e : Birthday) : Json :=
  .obj [("date", dateToJson e.date), ("metadata", metaToJson e.metadata)]

/-- Encode one biography entry. -/
def Biography.toJson (e : Biography) : Json :=
  .obj [("value", .str e.value), ("metadata", metaToJson e.metadata)]

/-- Encode one URL entry. -/
def Url.toJson (e : Url) : Json :=
  .obj [("type", .str e.type), ("value", .str e.value), ("metadata", metaToJson e.metadata)]

/-- Encode one custom-field entry. -/
def UserDefined.toJson (e : UserDefined) : Json :=
  .obj [("key", .str e.key), ("value", .str e.value), ("metadata", metaToJson e.metadata)]

/-- Encode one event entry. -/
def Event.toJson (e : Event) : Json :=
  .obj [("type", .str e.type), ("date", dateToJson e.date),
        ("metadata", metaToJson e.metadata)]

/-- Encode one relation entry. -/
def Relation.toJson (e : Relation) : Json :=
  .obj [("type", .str e.type), ("person", .str e.person),
        ("metadata", metaToJson e.metadata)]

/-- Encode one generic field-group entry. -/
def GenericField.toJson (e : GenericField) : Json :=
  .obj [("value", .str e.value), ("metadata", metaToJson e.metadata)]

/-- Encode one membership entry. -/
def Membership.toJson (e : Membership) : Json :=
  .obj [("contactGroupMembership",
          match e.contactGroupMembership with
          | none => .null
          | some cgm => .obj [("contactGroupResourceName", .str cgm.contactGroupResourceName)]),
        ("metadata", metaToJson e.metadata)]

/-- Encode one person record. -/
def Person.toJson (p : Person) : Json :=
  .obj [("resourceName", .str p.resourceName),
        ("metadata", personMetaToJson p.metadata),
        ("names", .arr (p.names.map Name.toJson)),
        ("nicknames", .arr (p.nicknames.map Nickname.toJson)),
        ("fileAses", .arr (p.fileAses.map FileAs.toJson)),
        ("emailAddresses", .arr (p.emailAddresses.map EmailAddress.toJson)),
        ("phoneNumbers", .arr (p.phoneNumbers.map PhoneNumber.toJson)),
        ("addresses", .arr (p.addresses.map Address.toJson)),
        ("organizations", .arr (p.organizations.map Organization.toJson)),
        ("birthdays", .arr (p.birthdays.map Birthday.toJson)),
        ("biographies", .arr (p.biographies.map Biography.toJson)),
        ("urls", .arr (p.urls.map Url.toJson)),
        ("userDefined", .arr (p.userDefined.map UserDefined.toJson)),
        ("events", .arr (p.events.map Event.toJson)),
        ("relations", .arr (p.relations.map Relation.toJson)),
        ("memberships", .arr (p.memberships.map Membership.toJson)),
        ("occupations", .arr (p.occupations.map GenericField.toJson)),
        ("genders", .arr (p.genders.map GenericField.toJson)),
        ("imClients", .arr (p.imClients.map GenericField.toJson)),
        ("interests", .arr (p.interests.map GenericField.toJson)),
        ("sipAddresses", .arr (p.sipAddresses.map GenericField.toJson)),
        ("calendarUrls", .arr (p.calendarUrls.map GenericField.toJson)),
        ("externalIds", .arr (p.externalIds.map GenericField.toJson)),
        ("locales", .arr (p.locales.map GenericField.toJson)),
        ("locations", .arr (p.locations.map GenericField.toJson)),
        ("miscKeywords", .arr (p.miscKeywords.map GenericField.toJson)),
        ("clientData", .arr (p.clientData.map GenericField.toJson)),
        ("photos", .arr (p.photos.map GenericField.toJson))]

/-- Encode one contact group. -/
def ContactGroup.toJson (g : ContactGroup) : Json :=
  .obj [("resourceName", .str g.resourceName), ("name", .str g.name),
        ("groupType", .str g.groupType)]

/-- `SaveToFile` (backup.go lines 62-73): the JSON document written for an
archive (`json.MarshalIndent` on the `BackupFile` struct, up to whitespace). -/
def SaveToFile (b : BackupFile) : Json :=
  .obj [("version", .str b.version),
        ("created_at", .str b.createdAt),
        ("contact_count", .num b.contactCount),
        ("group_count", .num b.groupCount),
        ("contacts", .arr (b.contacts.map Person.toJson)),
        ("groups", .arr (b.groups.map ContactGroup.toJson))]

/-- Decode a string member: absent or `null` gives the zero value, a
non-string shape is a parse error. -/
def getStr (o : List (String × Json)) (k : String) : Option String :=
  match o.lookup k with
  | none => some ""
  | some .null => some ""
  | some (.str s) => some s
  | some _ => none

/-- Decode an integer member. -/
def getInt (o : List (String × Json)) (k : String) : Option Int :=
  match o.lookup k with
  | none => some 0
  | some .null => some 0
  | some (.num n) => some n
  | some _ => none

/-- Decode a boolean member. -/
def getBool (o : List (String × Json)) (k : String) : Option Bool :=
  match o.lookup k with
  | none => some false
  | some .null => some false
  | some (.bool b) => some b
  | some _ => none

/-- Decode an array member into its raw elements. -/
def getArr (o : List (String × Json)) (k : String) : Option (List Json) :=
  match o.lookup k with
  | none => some []
  | some .null => some []
  | some (.arr xs) => some xs
  | some _ => none

/-- Decode every element of an array; one bad element fails the whole
array. -/
def parseArr (f : Json → Option α) : List Json → Option (List α)
  | [] => some []
  | j :: js =>
    match f j, parseArr f js with
    | some a, some tl => some (a :: tl)
    | _, _ => none

/-- Decode an optional-object member (a `nil` pointer field): absent or
`null` gives `none`, otherwise the element decoder must succeed. -/
def getOpt (f : Json → Option α) (o : List (String × Json)) (k : String) :
    Option (Option α) :=
  match o.lookup k with
  | none => some none
  | some .null => some none
  | some j =>
    match f j with
    | some a => some (some a)
    | none => none

/-- Decode a list member with an element decoder. -/
def getList (f : Json → Option α) (o : List (String × Json)) (k : String) :
    Option (List α) :=
  match getArr o k with
  | some js => parseArr f js
  | none => none

/-- Decode a field metadata stamp. -/
def parseMeta : Json → Option FieldMetadata
  | .obj o =>
    match getBool o "primary", getBool o "verified" with
    | some a, some b => some ⟨a, b⟩
    | _, _ => none
  | _ => none

/-- Decode person metadata. -/
def parsePersonMeta : Json → Option PersonMetadata
  | .obj o =>
    match getBool o "deleted" with
    | some a => some ⟨a⟩
    | none => none
  | _ => none

/-- Decode a date. -/
def parseDate : Json → Option GDate
  | .obj o =>
    match getInt o "year", getInt o "month", getInt o "day" with
    | some y, some m, some d => some ⟨y, m, d⟩
    | _, _, _ => none
  | _ => none

/-- Decode one name entry. -/
def parseName : Json → Option Name
  | .obj o =>
    match getStr o "honorificPrefix", getStr o "givenName", getStr o "middleName",
        getStr o "familyName", getStr o "honorificSuffix", getStr o "phoneticGivenName",
        getStr o "phoneticMiddleName", getStr o "phoneticFamilyName",
        getOpt parseMeta o "metadata" with
    | some a, some b, some c, some d, some e, some f, some g, some h, some m =>
      some ⟨a, b, c, d, e, f, g, h, m⟩
    | _, _, _, _, _, _, _, _, _ => none
  | _ => none

/-- Decode one nickname entry. -/
def parseNickname : Json → Option Nickname
  | .obj o =>
    match getStr o "value", getOpt parseMeta o "metadata" with
    | some v, some m => some ⟨v, m⟩
    | _, _ => none
  | _ => none

/-- Decode one file-as entry. -/
def parseFileAs : Json → Option FileAs
  | .obj o =>
    match getStr o "value", getOpt parseMeta o "metadata" with
    | some v, some m => some ⟨v, m⟩
    | _, _ => none
  | _ => none

/-- Decode one email entry. -/
def parseEmail : Json → Option EmailAddress
  | .obj o =>
    match getStr o "type", getStr o "value", getOpt parseMeta o "metadata" with
    | some t, some v, some m => some ⟨t, v, m⟩
    | _, _, _ => none
  | _ => none

/-- Decode one phone entry. -/
def parsePhone : Json → Option PhoneNumber
  | .obj o =>
    match getStr o "type", getStr o "value", getOpt parseMeta o "metadata" with
    | some t, some v, some m => some ⟨t, v, m⟩
    | _, _, _ => none
  | _ => none

/-- Decode one address entry. -/
def parseAddress : Json → Option Address
  | .obj o =>
    match getStr o "type", getStr o "streetAddress", getStr o "extendedAddress",
        getStr o "city", getStr o "region", getStr o "postalCode", getStr o "country",
        getStr o "poBox", getOpt parseMeta o "metadata" with
    | some a, some b, some c, some d, some e, some f, some g, some h, some m =>
      some ⟨a, b, c, d, e, f, g, h, m⟩
    | _, _, _, _, _, _, _, _, _ => none
  | _ => none

/-- Decode one organization entry. -/
def parseOrganization : Json → Option Organization
  | .obj o =>
    match getStr o "name", getStr o "title", getStr o "department",
        getOpt parseMeta o "metadata" with
    | some a, some b, some c, some m => some ⟨a, b, c, m⟩
    | _, _, _, _ => none
  | _ => none

/-- Decode one birthday entry. -/
def parseBirthday : Json → Option Birthday
  | .obj o =>
    match getOpt parseDate o "date", getOpt parseMeta o "metadata" with
    | some d, some m => some ⟨d, m⟩
    | _, _ => none
  | _ => none

/-- Decode one biography entry. -/
def parseBiography : Json → Option Biography
  | .obj o =>
    match getStr o "value", getOpt parseMeta o "metadata" with
    | some v, some m => some ⟨v, m⟩
    | _, _ => none
  | _ => none

/-- Decode one URL entry. -/
def parseUrl : Json → Option Url
  | .obj o =>
    match getStr o "type", getStr o "value", getOpt parseMeta o "metadata" with
    | some t, some v, some m => some ⟨t, v, m⟩
    | _, _, _ => none
  | _ => none

/-- Decode one custom-field entry. -/
def parseUserDefined : Json → Option UserDefined
  | .obj o =>
    match getStr o "key", getStr o "value", getOpt parseMeta o "metadata" with
    | some k, some v, some m => some ⟨k, v, m⟩
    | _, _, _ => none
  | _ => none

/-- Decode one event entry. -/
def parseEvent : Json → Option Event
  | .obj o =>
    match getStr o "type", getOpt parseDate o "date", getOpt parseMeta o "metadata" with
    | some t, some d, some m => some ⟨t, d, m⟩
    | _, _, _ => none
  | _ => none

/-- Decode one relation entry. -/
def parseRelation : Json → Option Relation
  | .obj o =>
    match getStr o "type", getStr o "person", getOpt parseMeta o "metadata" with
    | some t, some v, some m => some ⟨t, v, m⟩
    | _, _, _ => none
  | _ => none

/-- Decode one generic field-group entry. -/
def parseGenericField : Json → Option GenericField
  | .obj o =>
    match getStr o "value", getOpt parseMeta o "metadata" with
    | some v, some m => some ⟨v, m⟩
    | _, _ => none
  | _ => none

/-- Decode a contact-group reference. -/
def parseCgm : Json → Option ContactGroupMembership
  | .obj o =>
    match getStr o "contactGroupResourceName" with
    | some r => some ⟨r⟩
    | none => none
  | _ => none

/-- Decode one membership entry. -/
def parseMembership : Json → Option Membership
  | .obj o =>
    match getOpt parseCgm o "contactGroupMembership", getOpt parseMeta o "metadata" with
    | some c, some m => some ⟨c, m⟩
    | _, _ => none
  | _ => none

/-- Decode one person record. -/
def parsePerson : Json → Option Person
  | .obj o =>
    match getStr o "resourceName", getOpt parsePersonMeta o "metadata",
        getList parseName o "names", getList parseNickname o "nicknames",
        getList parseFileAs o "fileAses", getList parseEmail o "emailAddresses",
        getList parsePhone o "phoneNumbers", getList parseAddress o "addresses",
        getList parseOrganization o "organizations", getList parseBirthday o "birthdays",
        getList parseBiography o "biographies" with
    | some rn, some md, some nas, some nis, some fas, some ems, some phs, some ads,
        some ors, some bds, some bis =>
      match getList parseUrl o "urls", getList parseUserDefined o "userDefined",
          getList parseEvent o "events", getList parseRelation o "relations",
          getList parseMembership o "memberships", getList parseGenericField o "occupations",
          getList parseGenericField o "genders", getList parseGenericField o "imClients",
          getList parseGenericField o "interests" with
      | some urs, some uds, some evs, some rls, some mms, some ocs, some gds, some ims,
          some its =>
        match getList parseGenericField o "sipAddresses",
            getList parseGenericField o "calendarUrls",
            getList parseGenericField o "externalIds", getList parseGenericField o "locales",
            getList parseGenericField o "locations",
            getList parseGenericField o "miscKeywords",
            getList parseGenericField o "clientData", getList parseGenericField o "photos" with
        | some sps, some cls, some exs, some los, some lcs, some mks, some cds, some pts =>
          some ⟨rn, md, nas, nis, fas, ems, phs, ads, ors, bds, bis, urs, uds, evs, rls,
                mms, ocs, gds, ims, its, sps, cls, exs, los, lcs, mks, cds, pts⟩
        | _, _, _, _, _, _, _, _ => none
      | _, _, _, _, _, _, _, _, _ => none
    | _, _, _, _, _, _, _, _, _, _, _ => none
  | _ => none

/-- Decode one contact group. -/
def parseContactGroup : Json → Option ContactGroup
  | .obj o =>
    match getStr o "resourceName", getStr o "name", getStr o "groupType" with
    | some r, some n, some t => some ⟨r, n, t⟩
    | _, _, _ => none
  | _ => none

/-- Decode a backup file (`json.Unmarshal` into `BackupFile`). -/
def parseBackup : Json → Option BackupFile
  | .obj o =>
    match getStr o "version", getStr o "created_at", getInt o "contact_count",
        getInt o "group_count", getList parsePerson o "contacts",
        getList parseContactGroup o "groups" with
    | some v, some ca, some cc, some gc, some cs, some gs =>
      some ⟨v, ca, cc, gc, cs, gs⟩
    | _, _, _, _, _, _ => none
  | _ => none

/-- `LoadBackupFile` (backup.go lines 76-93): fail when the file cannot be
read, when its content does not deserialize, or when the deserialized
archive carries an empty version tag; otherwise return the archive. -/
def LoadBackupFile (file : Option Json) : Except String BackupFile :=
  match file with
  | none => .error "failed to read backup file"
  | some data =>
    match parseBackup data with
    | none => .error "failed to parse backup file"
    | some backup =>
      if backup.version = "" then .error "invalid backup file: missing version"
      else .ok backup

/-! ## Tabular export (models/csv.go) -/

/-- Separator between labels in the Labels column (`labelSeparator`). -/
def labelSeparator : String := " ::: "

/-- Maximum per-record occurrence counts of the repeated field groups across
the record set (`csvFieldCounts`). -/
structure csvFieldCounts where
  emails : Nat := 0
  phones : Nat := 0
  addresses : Nat := 0
  events : Nat := 0
  relations : Nat := 0
  websites : Nat := 0
  customFields : Nat := 0
deriving DecidableEq, Repr

/-- `countMaxFields` (csv.go lines 47-75): scan the records, keeping the
maximum length seen for each repeated field group. -/
def countMaxFields (contacts : List Person) : csvFieldCounts :=
  contacts.foldl
    (fun counts contact =>
      { emails := max counts.emails contact.emailAddresses.length,
        phones := max counts.phones contact.phoneNumbers.length,
        addresses := max counts.addresses contact.addresses.length,
        events := max counts.events contact.events.length,
        relations := max counts.relations contact.relations.length,
        websites := max counts.websites contact.urls.length,
        customFields := max counts.customFields contact.userDefined.length })
    {}

/-- The label/value column pair headers for one repeated group
(`fmt.Sprintf` of `"<tag> %d - Label"` and `"<tag> %d - Value"` for
`i` from 1 to `n`). -/
def pairCols (tag : String) (n : Nat) : List String :=
  (List.range n).flatMap (fun i =>
    [tag ++ " " ++ toString (i + 1) ++ " - Label",
     tag ++ " " ++ toString (i + 1) ++ " - Value"])

/-- The eight column headers per address slot (csv.go lines 109-118). -/
def addressCols (n : Nat) : List String :=
  (List.range n).flatMap (fun i =>
    ["Address " ++ toString (i + 1) ++ " - Label",
     "Address " ++ toString (i + 1) ++ " - Street",
     "Address " ++ toString (i + 1) ++ " - Extended Address",
     "Address " ++ toString (i + 1) ++ " - City",
     "Address " ++ toString (i + 1) ++ " - Region",
     "Address " ++ toString (i + 1) ++ " - Postal Code",
     "Address " ++ toString (i + 1) ++ " - Country",
     "Address " ++ toString (i + 1) ++ " - PO Box"])

/-- `buildCSVHeaders` (csv.go lines 78-148): the 14 singular columns, then
the repeated-group column blocks, then the trailing Notes and Labels
columns. -/
def buildCSVHeaders (counts : csvFieldCounts) : List String :=
  ["Name Prefix", "First Name", "Middle Name", "Last Name", "Name Suffix",
   "Phonetic First Name", "Phonetic Middle Name", "Phonetic Last Name",
   "Nickname", "File As", "Birthday",
   "Organization Name", "Organization Title", "Organization Department"] ++
  pairCols "Email" counts.emails ++
  pairCols "Phone" counts.phones ++
  addressCols counts.addresses ++
  pairCols "Event" counts.events ++
  pairCols "Relation" counts.relations ++
  pairCols "Website" counts.websites ++
  pairCols "Custom Field" counts.customFields ++
  ["Notes", "Labels"]

/-- `normalizeLabel` (csv.go lines 323-358): strip the `TYPE_` machine
prefix marker, lowercase, capitalize the first letter, then map the known
values to display strings and pass everything else through. -/
def normalizeLabel (label : String) : String :=
  if label = "" then ""
  else
    let l1 := if strStartsWith label "TYPE_" then label.drop 5 else label
    let l2 := l1.toLower
    let l3 := if l2.length > 0 then (l2.take 1).toUpper ++ l2.drop 1 else l2
    match l3.toLower with
    | "home" => "Home"
    | "work" => "Work"
    | "mobile" => "Mobile"
    | "main" => "Main"
    | "other" => "Other"
    | "homefax" => "Home Fax"
    | "workfax" => "Work Fax"
    | "pager" => "Pager"
    | _ => l3

/-- The exact-match system-group list of `isSystemGroup` (csv.go lines
384-403).  Note it includes `contactGroups/blocked`, which the sanitizer's
prefix allowlist omits. -/
def systemGroups : List String :=
  ["contactGroups/myContacts", "contactGroups/starred", "contactGroups/chatBuddies",
   "contactGroups/all", "contactGroups/friends", "contactGroups/family",
   "contactGroups/coworkers", "contactGroups/blocked"]

/-- `isSystemGroup` (csv.go lines 384-403). -/
def isSystemGroup (resourceName : String) : Bool :=
  systemGroups.contains resourceName

/-- `extractLabels` (csv.go lines 361-381): the names of the user-created
groups the record belongs to, skipping system groups and references absent
from the name map, in membership order. -/
def extractLabels (contact : Person) (groupNameMap : List (String × String)) :
    List String :=
  contact.memberships.filterMap (fun m =>
    match m.contactGroupMembership with
    | none => none
    | some cgm =>
      if isSystemGroup cgm.contactGroupResourceName then none
      else groupNameMap.lookup cgm.contactGroupResourceName)

/-- Zero-pad a natural number to `w` digits (`fmt.Sprintf` with `%0wd`). -/
def padNat (w : Nat) (n : Nat) : String :=
  let s := toString n
  String.mk (List.replicate (w - s.length) '0') ++ s

/-- Zero-pad an integer to width `w`, sign included. -/
def padInt (w : Nat) (n : Int) : String :=
  if n < 0 then "-" ++ padNat (w - 1) n.natAbs else padNat w n.toNat

/-- The date rendering used for birthdays and events (csv.go lines 185-191
and 265-271): `YYYY-MM-DD`, or `--MM-DD` when the year is absent. -/
def formatDate (d : GDate) : String :=
  if d.year > 0 then padInt 4 d.year ++ "-" ++ padInt 2 d.month ++ "-" ++ padInt 2 d.day
  else "--" ++ padInt 2 d.month ++ "-" ++ padInt 2 d.day

/-- The cells one repeated group contributes to a row: exactly `n` slots,
each rendered from the entry at that index when present and filled with
`width` blank cells otherwise. -/
def groupCells (n : Nat) (entries : List α) (render : α → List String)
    (width : Nat) : List String :=
  (List.range n).flatMap (fun i =>
    match entries.get? i with
    | some e => render e
    | none => List.replicate width "")

/-- `contactToCSVRow` (csv.go lines 151-320): the 14 singular cells (first
entry of each group, else blank), the repeated-group blocks padded to the
count vector, then the notes cell and the joined labels cell. -/
def contactToCSVRow (contact : Person) (counts : csvFieldCounts)
    (groupNameMap : List (String × String)) : List String :=
  let name0 := contact.names.head?
  let bday0 :=
    match contact.birthdays.head? with
    | some b => match b.date with | some d => formatDate d | none => ""
    | none => ""
  [((name0.map Name.honorificPfx).getD ""),
   ((name0.map Name.givenName).getD ""),
   ((name0.map Name.middleName).getD ""),
   ((name0.map Name.familyName).getD ""),
   ((name0.map Name.honorificSfx).getD ""),
   ((name0.map Name.phoneticGivenName).getD ""),
   ((name0.map Name.phoneticMiddleName).getD ""),
   ((name0.map Name.phoneticFamilyName).getD ""),
   (((contact.nicknames.head?).map Nickname.value).getD ""),
   (((contact.fileAses.head?).map FileAs.value).getD ""),
   bday0,
   (((contact.organizations.head?).map Organization.name).getD ""),
   (((contact.organizations.head?).map Organization.title).getD ""),
   (((contact.organizations.head?).map Organization.department).getD "")] ++
  groupCells counts.emails contact.emailAddresses
    (fun e => [normalizeLabel e.type, e.value]) 2 ++
  groupCells counts.phones contact.phoneNumbers
    (fun e => [normalizeLabel e.type, e.value]) 2 ++
  groupCells counts.addresses contact.addresses
    (fun a => [normalizeLabel a.type, a.streetAddress, a.extendedAddress, a.city,
               a.region, a.postalCode, a.country, a.poBox]) 8 ++
  groupCells counts.events contact.events
    (fun e => [normalizeLabel e.type,
               match e.date with | some d => formatDate d | none => ""]) 2 ++
  groupCells counts.relations contact.relations
    (fun r => [normalizeLabel r.type, r.person]) 2 ++
  groupCells counts.websites contact.urls
    (fun u => [normalizeLabel u.type, u.value]) 2 ++
  groupCells counts.customFields contact.userDefined
    (fun u => [u.key, u.value]) 2 ++
  [(((contact.biographies.head?).map Biography.value).getD "")] ++
  [String.intercalate labelSeparator (extractLabels contact groupNameMap)]

/-- The count adjustment in `SaveToCSV` (csv.go lines 419-424): force at
least one email and one phone slot for a stable minimum shape. -/
def adjustCounts (c : csvFieldCounts) : csvFieldCounts :=
  { c with
    emails := if c.emails = 0 then 1 else c.emails,
    phones := if c.phones = 0 then 1 else c.phones }

/-- `SaveToCSV` (csv.go lines 406-454) as the table it writes: the header
row built from the adjusted maximum counts, then one row per contact, with
the group-name map taken from the archive's user-created groups. -/
def SaveToCSV (b : BackupFile) : List (List String) :=
  let groupNameMap :=
    (b.groups.filter (fun g => g.groupType == "USER_CONTACT_GROUP")).map
      (fun g => (g.resourceName, g.name))
  let counts := adjustCounts (countMaxFields b.contacts)
  buildCSVHeaders counts :: b.contacts.map (fun c => contactToCSVRow c counts groupNameMap)

/-! ## Spec-side definitions

Definitions in this section follow the specification's words, for comparison
against the source-derived definitions above. -/

/-- Code-derived classifier: a reference the sanitizer treats as
user-defined, i.e. it lives under `contactGroups/` and extends none of the
seven allowlisted system prefixes. -/
def isUserGroupRef (r : String) : Bool :=
  strStartsWith r "contactGroups/" &&
    systemGroupPrefixList.all (fun q => !(strStartsWith r q))

/-- Modelled from the spec (claim C2, as stated): handle one membership by
the kind of the referenced category — the preserved system category
(`contactGroups/myContacts`) is copied verbatim, any other system category
(per the repository's own `isSystemGroup` list) is dropped, and a
user-defined category is rewritten through the remap table or dropped when
no mapping exists. -/
def membershipClaimSpec (groupMap : List (String × String)) (m : Membership) :
    Option Membership :=
  match m.contactGroupMembership with
  | none => none
  | some cgm =>
    if cgm.contactGroupResourceName = "contactGroups/myContacts" then some m
    else if isSystemGroup cgm.contactGroupResourceName then none
    else
      match groupMap.lookup cgm.contactGroupResourceName with
      | some newResourceName => some ⟨some ⟨newResourceName⟩, none⟩
      | none => none

/-- Modelled from the spec (claim C2, amended): the classification the code
actually performs — an exact `contactGroups/myContacts` reference is copied
verbatim; a reference under `contactGroups/` extending none of the seven
allowlisted system prefixes is user-defined and is rewritten through the
remap table (as a fresh metadata-free reference) or dropped when no mapping
exists; every other membership (other system references, references
extending a system prefix such as `contactGroups/blocked`, and memberships
with no category reference) is dropped. -/
def membershipRestoreSpec (groupMap : List (String × String)) (m : Membership) :
    Option Membership :=
  match m.contactGroupMembership with
  | none => none
  | some cgm =>
    if cgm.contactGroupResourceName = "contactGroups/myContacts" then some m
    else if isUserGroupRef cgm.contactGroupResourceName then
      match groupMap.lookup cgm.contactGroupResourceName with
      | some newResourceName => some ⟨some ⟨newResourceName⟩, none⟩
      | none => none
    else none

/-- Every entry of every non-membership field group of a record carries no
metadata stamp. -/
def nonMembershipMetadataFree (p : Person) : Bool :=
  p.names.all (fun e => e.metadata == none) &&
  p.nicknames.all (fun e => e.metadata == none) &&
  p.fileAses.all (fun e => e.metadata == none) &&
  p.emailAddresses.all (fun e => e.metadata == none) &&
  p.phoneNumbers.all (fun e => e.metadata == none) &&
  p.addresses.all (fun e => e.metadata == none) &&
  p.organizations.all (fun e => e.metadata == none) &&
  p.birthdays.all (fun e => e.metadata == none) &&
  p.biographies.all (fun e => e.metadata == none) &&
  p.urls.all (fun e => e.metadata == none) &&
  p.userDefined.all (fun e => e.metadata == none) &&
  p.events.all (fun e => e.metadata == none) &&
  p.relations.all (fun e => e.metadata == none) &&
  p.occupations.all (fun e => e.metadata == none) &&
  p.genders.all (fun e => e.metadata == none) &&
  p.imClients.all (fun e => e.metadata == none) &&
  p.interests.all (fun e => e.metadata == none) &&
  p.sipAddresses.all (fun e => e.metadata == none) &&
  p.calendarUrls.all (fun e => e.metadata == none) &&
  p.externalIds.all (fun e => e.metadata == none) &&
  p.locales.all (fun e => e.metadata == none) &&
  p.locations.all (fun e => e.metadata == none) &&
  p.miscKeywords.all (fun e => e.metadata == none) &&
  p.clientData.all (fun e => e.metadata == none) &&
  p.photos.all (fun e => e.metadata == none)

/-- Every entry of every field group — memberships included — carries no
metadata stamp. -/
def allMetadataFree (p : Person) : Bool :=
  nonMembershipMetadataFree p && p.memberships.all (fun m => m.metadata == none)

/-- Each membership of the sanitized record is accounted for by the spec's
case analysis: it is the verbatim-preserved reference to the well-known
system category, or a fresh metadata-free reference obtained by remapping a
user reference the input record carried. -/
def membershipsWithinSpec (contact : Person) (groupMap : List (String × String)) : Bool :=
  (cleanContactForCreation contact groupMap).memberships.all (fun m =>
    (contact.memberships.contains m &&
      m.contactGroupMembership == some ⟨"contactGroups/myContacts"⟩) ||
    groupMap.any (fun kv =>
      m == ⟨some ⟨kv.2⟩, none⟩ &&
      contact.memberships.any (fun m0 => m0.contactGroupMembership == some ⟨kv.1⟩)))

/-- Archive counts invariant: the stored record count and category count
equal the lengths of the stored lists. -/
def countInv (b : BackupFile) : Bool :=
  b.contactCount == (b.contacts.length : Int) && b.groupCount == (b.groups.length : Int)

/-- A contact whose sole membership is the preserved system reference with a
service-assigned metadata stamp still attached. -/
def stampedSystemContact : Person :=
  { resourceName := "people/c1",
    memberships := [⟨some ⟨"contactGroups/myContacts"⟩, some ⟨true, true⟩⟩] }

/-- A membership referencing the `contactGroups/blocked` system category. -/
def blockedMembership : Membership :=
  ⟨some ⟨"contactGroups/blocked"⟩, none⟩

/-- A remap table carrying a mapping for `contactGroups/blocked`. -/
def blockedRemap : List (String × String) :=
  [("contactGroups/blocked", "contactGroups/7a2b9c")]

/-- A small concrete archive exercising nested entries, metadata stamps and
memberships. -/
def sampleBackup : BackupFile :=
  { version := "1.0",
    createdAt := "2024-01-01T00:00:00Z",
    contactCount := 1,
    groupCount := 1,
    contacts := [{ resourceName := "people/c1",
                   names := [{ givenName := "Ada", familyName := "Lovelace",
                               metadata := some { primary := true } }],
                   emailAddresses := [{ type := "home", value := "ada@example.com" }],
                   birthdays := [{ date := some { year := 1815, month := 12, day := 10 } }],
                   memberships := [{ contactGroupMembership :=
                                       some { contactGroupResourceName := "contactGroups/ab12" },
                                     metadata := some { verified := true } }] }],
    groups := [{ resourceName := "contactGroups/ab12", name := "Staff",
                 groupType := "USER_CONTACT_GROUP" }] }

/-- An archive document whose stored contact count disagrees with its (empty)
contact list, yet carries a valid version tag. -/
def mismatchedCountsJson : Json :=
  .obj [("version", .str "1.0"), ("created_at", .str "2024-01-01T00:00:00Z"),
        ("contact_count", .num 5), ("group_count", .num 0),
        ("contacts", .arr []), ("groups", .arr [])]

/-! ## Helper lemmas -/

theorem chunks_flatten (B : Nat) (l : List α) : (chunks B l).flatten = l := by
  induction l using chunks.induct B with
  | case1 => simp [chunks]
  | case2 x xs ih =>
    simp only [chunks, List.flatten_cons, ih, List.cons_append]
    rw [List.take_append_drop]

theorem chunks_sizes (B : Nat) (hB : 0 < B) (l : List α) :
    (chunks B l).all (fun c => decide (c.length ≤ B)) = true := by
  induction l using chunks.induct B with
  | case1 => simp [chunks]
  | case2 x xs ih =>
    simp only [chunks, List.all_cons, ih, Bool.and_true]
    simp only [decide_eq_true_eq, List.length_cons]
    have := List.length_take (B - 1) xs
    omega

theorem chunks_count (B : Nat) (hB : 0 < B) (l : List α) :
    (chunks B l).length = (l.length + B - 1) / B := by
  induction l using chunks.induct B with
  | case1 =>
    simp only [chunks, List.length_nil]
    exact (Nat.div_eq_of_lt (by omega)).symm
  | case2 x xs ih =>
    simp only [chunks, List.length_cons, ih, List.length_drop]
    have hx : xs.length + 1 + B - 1 = xs.length + B := by omega
    rw [hx, Nat.add_div_right _ hB]
    rcases Nat.lt_or_ge xs.length (B - 1) with h | h
    · have h0 : xs.length - (B - 1) = 0 := by omega
      rw [h0]
      simp only [Nat.zero_add]
      rw [Nat.div_eq_of_lt (by omega), Nat.div_eq_of_lt (by omega)]
    · have h1 : xs.length - (B - 1) + B - 1 = xs.length := by omega
      rw [h1]

theorem listPaginated_flatten (pages : List (Page α)) (h : chainOk pages = true) :
    listPaginated pages = (pages.map Page.items).flatten := by
  induction pages with
  | nil => simp [listPaginated]
  | cons p rest ih =>
    cases rest with
    | nil =>
      simp only [chainOk, beq_iff_eq] at h
      simp [listPaginated, h]
    | cons q qs =>
      simp only [chainOk, Bool.and_eq_true, bne_iff_ne, ne_eq] at h
      rw [listPaginated, if_neg h.1, ih h.2]
      simp

/-! ## Claims -/

/-- Claim C3: for every contact list, the batched mutation operations issue
exactly `ceil(N/B)` batches (`B` = 500 for batch delete over the `N`
non-empty resource names, `B` = 200 for batch create over the `N` records),
every batch has size at most `B`, and the concatenation of the batches is
exactly the original item list, in order. -/
theorem batch_partitioning_C3 (contacts : List Person) :
    (DeleteAllContactsBatches contacts).length =
      ((deleteResourceNames contacts).length + batchDeleteSize - 1) / batchDeleteSize ∧
    (DeleteAllContactsBatches contacts).all
      (fun batch => decide (batch.length ≤ batchDeleteSize)) = true ∧
    (DeleteAllContactsBatches contacts).flatten = deleteResourceNames contacts ∧
    (CreateContactsBatches contacts).length =
      (contacts.length + batchCreateSize - 1) / batchCreateSize ∧
    (CreateContactsBatches contacts).all
      (fun batch => decide (batch.length ≤ batchCreateSize)) = true ∧
    (CreateContactsBatches contacts).flatten = contacts := by
  refine ⟨?_, ?_, ?_, ?_, ?_, ?_⟩
  · exact chunks_count batchDeleteSize (by decide) _
  · exact chunks_sizes batchDeleteSize (by decide) _
  · exact chunks_flatten batchDeleteSize _
  · exact chunks_count batchCreateSize (by decide) _
  · exact chunks_sizes batchCreateSize (by decide) _
  · exact chunks_flatten batchCreateSize _

/-- Claim C4: for every finite well-formed sequence of pages (continuation
cursors linking each page to the next, the last cursor empty), the
paginated fetches return the in-order concatenation of the pages' items —
each element exactly once — and an empty result page with no continuation
cursor terminates the loop without error, returning the empty list. -/
theorem pagination_C4 (pagesC : List (Page Person)) (pagesG : List (Page ContactGroup))
    (hC : chainOk pagesC = true) (hG : chainOk pagesG = true) :
    ListContacts pagesC = (pagesC.map Page.items).flatten ∧
    ListGroups pagesG = (pagesG.map Page.items).flatten ∧
    ListContacts [⟨[], ""⟩] = [] ∧ ListGroups [⟨[], ""⟩] = [] :=
  ⟨listPaginated_flatten pagesC hC, listPaginated_flatten pagesG hG, rfl, rfl⟩

/-- Concrete instance of claim C4: a two-page contact fetch concatenates the
pages in order, and a single empty group page with an empty cursor yields
the empty result. -/
theorem pagination_C4_witness :
    ListContacts [⟨[{ resourceName := "people/a" }], "tok1"⟩,
                  ⟨[{ resourceName := "people/b" }], ""⟩] =
      [{ resourceName := "people/a" }, { resourceName := "people/b" }] ∧
    ListGroups [⟨[], ""⟩] = [] := by
  have h := pagination_C4
    [⟨[{ resourceName := "people/a" }], "tok1"⟩, ⟨[{ resourceName := "people/b" }], ""⟩]
    ([⟨[], ""⟩] : List (Page ContactGroup)) (by decide) (by decide)
  exact ⟨by rw [h.1]; rfl, h.2.2.2⟩

theorem foldl_count (f : α → Bool) (l : List α) (n : Nat) :
    l.foldl (fun deleted g => if f g then deleted + 1 else deleted) n =
      n + (l.filter f).length := by
  induction l generalizing n with
  | nil => simp
  | cons x xs ih =>
    by_cases h : f x
    · simp only [List.foldl_cons, h, if_true, ih, List.filter_cons, List.length_cons]
      omega
    · simp only [List.foldl_cons, h, if_false, ih, List.filter_cons, Bool.false_eq_true]

/-- Claim C8: `DeleteUserGroups` never surfaces an individual deletion
failure — after a successful category fetch it always returns successfully,
reporting the best-effort count (the number of user-created groups whose
deletion succeeded); only a failed fetch is surfaced, verbatim. -/
theorem best_effort_delete_C8 (gs : List ContactGroup) (deleteOk : ContactGroup → Bool)
    (e : String) :
    DeleteUserGroups (.ok gs) deleteOk =
      .ok (((gs.filter (fun g => g.groupType == "USER_CONTACT_GROUP")).filter
              deleteOk).length) ∧
    DeleteUserGroups (.error e) deleteOk = .error e := by
  constructor
  · simp only [DeleteUserGroups]
    rw [foldl_count, Nat.zero_add]
  · rfl

/-- Claim C7 (amended): the count invariant holds after `NewBackupFile` and
is preserved by every `AddContact` and `AddGroup`; `LoadBackupFile`
performs no count validation, so a loaded archive satisfies it only when
the stored counts happen to match the stored lists. -/
theorem counts_invariant_C7 (now : String) (b : BackupFile) (c : Person)
    (g : ContactGroup) (hb : countInv b = true) :
    countInv (NewBackupFile now) = true ∧
    countInv (b.AddContact c) = true ∧
    countInv (b.AddGroup g) = true := by
  simp only [countInv, Bool.and_eq_true, beq_iff_eq] at hb ⊢
  refine ⟨⟨rfl, rfl⟩, ⟨?_, ?_⟩, ⟨?_, ?_⟩⟩
  · simp [BackupFile.AddContact]
  · simpa [BackupFile.AddContact] using hb.2
  · simpa [BackupFile.AddGroup] using hb.1
  · simp [BackupFile.AddGroup]

/-- Concrete instance of claim C7: a fresh archive satisfies the count
invariant, and adding a contact and a group to it preserves it. -/
theorem counts_invariant_C7_witness :
    countInv (NewBackupFile "2024-01-01T00:00:00Z") = true ∧
    countInv ((NewBackupFile "2024-01-01T00:00:00Z").AddContact
      { resourceName := "people/a" }) = true ∧
    countInv ((NewBackupFile "2024-01-01T00:00:00Z").AddGroup
      { resourceName := "contactGroups/ab12", name := "Staff",
        groupType := "USER_CONTACT_GROUP" }) = true :=
  counts_invariant_C7 "2024-01-01T00:00:00Z" (NewBackupFile "2024-01-01T00:00:00Z")
    { resourceName := "people/a" }
    { resourceName := "contactGroups/ab12", name := "Staff",
      groupType := "USER_CONTACT_GROUP" } (by decide)

/-- Refutation of claim C7 as stated: an archive obtained from a load need
not satisfy the count invariant, because `LoadBackupFile` validates only the
version tag.  A stored document declaring five contacts over an empty
contact list loads successfully. -/
theorem counts_invariant_C7_counterexample :
    ¬ (∀ (file : Option Json) (b : BackupFile),
        LoadBackupFile file = Except.ok b → countInv b = true) := by
  intro h
  have hload : LoadBackupFile (some mismatchedCountsJson) =
      Except.ok ⟨"1.0", "2024-01-01T00:00:00Z", 5, 0, [], []⟩ := by rfl
  have := h (some mismatchedCountsJson) ⟨"1.0", "2024-01-01T00:00:00Z", 5, 0, [], []⟩ hload
  exact absurd this (by decide)

theorem length_range_flatMap (f : Nat → List String) (k : Nat)
    (hf : ∀ i, (f i).length = k) (n : Nat) :
    ((List.range n).flatMap f).length = k * n := by
  induction n with
  | zero => simp
  | succ m ih =>
    rw [List.range_succ]
    simp only [List.flatMap_append, List.length_append, ih, List.flatMap_cons,
      List.flatMap_nil, List.append_nil, hf, Nat.mul_succ]

theorem pairCols_length (tag : String) (n : Nat) : (pairCols tag n).length = 2 * n := by
  simp only [pairCols]
  apply length_range_flatMap
  intro i
  rfl

theorem addressCols_length (n : Nat) : (addressCols n).length = 8 * n := by
  simp only [addressCols]
  apply length_range_flatMap
  intro i
  rfl

theorem groupCells_length (n : Nat) (entries : List α) (render : α → List String)
    (w : Nat) (hr : ∀ a, (render a).length = w) :
    (groupCells n entries render w).length = w * n := by
  refine length_range_flatMap _ w (fun i => ?_) n
  cases entries.get? i with
  | none => simp
  | some e => exact hr e

theorem buildCSVHeaders_length (counts : csvFieldCounts) :
    (buildCSVHeaders counts).length =
      14 + 2 * counts.emails + 2 * counts.phones + 8 * counts.addresses +
        2 * counts.events + 2 * counts.relations + 2 * counts.websites +
        2 * counts.customFields + 2 := by
  simp only [buildCSVHeaders, List.append_assoc, List.length_append, pairCols_length,
    addressCols_length, List.length_cons, List.length_nil]
  omega

/-- Claim C9: for a fixed record set the header builder is a function of the
per-group maximum occurrence counts (hence deterministic), its column count
is the closed form `14 + 2×N` per label/value group `+ 8×N` for addresses
`+ 2` trailing columns, and the counts used by `SaveToCSV` are the maxima
over the record set with a minimum of 1 enforced for emails and phones
only. -/
theorem header_shape_C9 (counts : csvFieldCounts) (contacts : List Person) :
    (buildCSVHeaders counts).length =
      14 + 2 * counts.emails + 2 * counts.phones + 8 * counts.addresses +
        2 * counts.events + 2 * counts.relations + 2 * counts.websites +
        2 * counts.customFields + 2 ∧
    (adjustCounts (countMaxFields contacts)).emails =
      max (countMaxFields contacts).emails 1 ∧
    (adjustCounts (countMaxFields contacts)).phones =
      max (countMaxFields contacts).phones 1 ∧
    (adjustCounts (countMaxFields contacts)).addresses =
      (countMaxFields contacts).addresses ∧
    (adjustCounts (countMaxFields contacts)).events = (countMaxFields contacts).events ∧
    (adjustCounts (countMaxFields contacts)).relations =
      (countMaxFields contacts).relations ∧
    (adjustCounts (countMaxFields contacts)).websites =
      (countMaxFields contacts).websites ∧
    (adjustCounts (countMaxFields contacts)).customFields =
      (countMaxFields contacts).customFields := by
  refine ⟨buildCSVHeaders_length counts, ?_, ?_, rfl, rfl, rfl, rfl, rfl⟩
  · simp only [adjustCounts]
    cases (countMaxFields contacts).emails with
    | zero => rfl
    | succ k => simp [Nat.max_eq_left (Nat.succ_le_succ (Nat.zero_le k))]
  · simp only [adjustCounts]
    cases (countMaxFields contacts).phones with
    | zero => rfl
    | succ k => simp [Nat.max_eq_left (Nat.succ_le_succ (Nat.zero_le k))]

theorem contactToCSVRow_length (contact : Person) (counts : csvFieldCounts)
    (groupNameMap : List (String × String)) :
    (contactToCSVRow contact counts groupNameMap).length =
      14 + 2 * counts.emails + 2 * counts.phones + 8 * counts.addresses +
        2 * counts.events + 2 * counts.relations + 2 * counts.websites +
        2 * counts.customFields + 2 := by
  have h1 := groupCells_length counts.emails contact.emailAddresses
    (fun e => [normalizeLabel e.type, e.value]) 2 (fun _ => rfl)
  have h2 := groupCells_length counts.phones contact.phoneNumbers
    (fun e => [normalizeLabel e.type, e.value]) 2 (fun _ => rfl)
  have h3 := groupCells_length counts.addresses contact.addresses
    (fun a => [normalizeLabel a.type, a.streetAddress, a.extendedAddress, a.city,
               a.region, a.postalCode, a.country, a.poBox]) 8 (fun _ => rfl)
  have h4 := groupCells_length counts.events contact.events
    (fun e => [normalizeLabel e.type,
               match e.date with | some d => formatDate d | none => ""]) 2 (fun _ => rfl)
  have h5 := groupCells_length counts.relations contact.relations
    (fun r => [normalizeLabel r.type, r.person]) 2 (fun _ => rfl)
  have h6 := groupCells_length counts.websites contact.urls
    (fun u => [normalizeLabel u.type, u.value]) 2 (fun _ => rfl)
  have h7 := groupCells_length counts.customFields contact.userDefined
    (fun u => [u.key, u.value]) 2 (fun _ => rfl)
  simp only [contactToCSVRow, List.append_assoc, List.length_append, h1, h2, h3, h4,
    h5, h6, h7, List.length_cons, List.length_nil]
  omega

/-- Claim C10: for every count vector the row builder emits exactly as many
cells as the header builder emits columns (repeated groups are padded, never
truncated), so every row of a `SaveToCSV` table — header included — has the
width of the table's header. -/
theorem row_width_C10 :
    (∀ (counts : csvFieldCounts) (contact : Person)
        (groupNameMap : List (String × String)),
      (contactToCSVRow contact counts groupNameMap).length =
        (buildCSVHeaders counts).length) ∧
    (∀ b : BackupFile, (SaveToCSV b).all
      (fun row => decide (row.length =
        (buildCSVHeaders (adjustCounts (countMaxFields b.contacts))).length)) = true) := by
  constructor
  · intro counts contact groupNameMap
    rw [contactToCSVRow_length, buildCSVHeaders_length]
  · intro b
    simp only [SaveToCSV, List.all_cons, Bool.and_eq_true, decide_eq_true_eq,
      List.all_eq_true, List.mem_map]
    refine ⟨trivial, ?_⟩
    rintro r ⟨c, _, rfl⟩
    rw [contactToCSVRow_length, buildCSVHeaders_length]

theorem lookup_mem {l : List (String × String)} {k v : String}
    (h : l.lookup k = some v) : (k, v) ∈ l := by
  induction l with
  | nil => simp [List.lookup] at h
  | cons q qs ih =>
    rcases q with ⟨a, b⟩
    rw [List.lookup] at h
    cases hk : k == a
    · rw [hk] at h
      exact List.mem_cons_of_mem _ (ih h)
    · rw [hk] at h
      simp only [Option.some.injEq] at h
      have hka : k = a := by simpa using hk
      subst hka
      subst h
      exact List.mem_cons_self _ _

theorem userGroupCond (r : String) :
    (strStartsWith r "contactGroups/" &&
      !(strStartsWith r "contactGroups/myContacts") &&
      !(strStartsWith r "contactGroups/starred") &&
      !(strStartsWith r "contactGroups/chatBuddies") &&
      !(strStartsWith r "contactGroups/all") &&
      !(strStartsWith r "contactGroups/friends") &&
      !(strStartsWith r "contactGroups/family") &&
      !(strStartsWith r "contactGroups/coworkers")) = isUserGroupRef r := by
  simp [isUserGroupRef, systemGroupPrefixList, Bool.and_assoc]

theorem processMembership_eq_restoreSpec (groupMap : List (String × String))
    (m : Membership) : processMembership groupMap m = membershipRestoreSpec groupMap m := by
  rcases m with ⟨cg, md⟩
  cases cg with
  | none => rfl
  | some cgm =>
    rcases cgm with ⟨r⟩
    simp only [processMembership, membershipRestoreSpec]
    rw [userGroupCond]
    by_cases hmy : r = "contactGroups/myContacts"
    · subst hmy
      have hug : isUserGroupRef "contactGroups/myContacts" = false := by decide
      rw [hug]
      simp
    · cases hug : isUserGroupRef r
      · simp [hmy]
      · simp [hmy]

/-- Claim C2 (amended): for every record and remap table, `sanitize` handles
each membership exactly as the prefix-based classification the code
performs — a reference that is exactly `contactGroups/myContacts` is copied
verbatim; a reference under `contactGroups/` extending none of the seven
allowlisted system prefixes is treated as user-defined and is rewritten
through the remap table (as a fresh metadata-free reference) when a mapping
exists and dropped silently otherwise; every other membership — other
well-known system references, any reference merely extending a system
prefix (`contactGroups/blocked` among them), and memberships carrying no
category reference — is dropped. -/
theorem membership_cases_C2 (groupMap : List (String × String)) (m : Membership) :
    processMembership groupMap m = membershipRestoreSpec groupMap m :=
  processMembership_eq_restoreSpec groupMap m

/-- Refutation of claim C2 as stated: the code does not drop every reference
to a non-preserved system category.  `contactGroups/blocked` is a system
category by the repository's own `isSystemGroup` list, yet the sanitizer
classifies it by prefixes that omit it, so with a remap table containing it
the reference is rewritten instead of dropped. -/
theorem membership_cases_C2_counterexample :
    ¬ (∀ (groupMap : List (String × String)) (m : Membership),
        processMembership groupMap m = membershipClaimSpec groupMap m) := by
  intro h
  exact absurd (h blockedRemap blockedMembership) (by decide)

theorem cleanContact_memberships (contact : Person) (groupMap : List (String × String)) :
    (cleanContactForCreation contact groupMap).memberships =
      contact.memberships.filterMap (processMembership groupMap) := rfl

/-- Claim C1 (amended): for every record and remap table, the sanitized
record has an empty identifier, no top-level metadata, no metadata on any
entry of the non-membership field groups, and every membership in the
output is either the preserved system reference — copied verbatim, its
metadata stamp included — or a fresh metadata-free remapped user
reference; all other memberships are absent. -/
theorem sanitize_C1 (contact : Person) (groupMap : List (String × String)) :
    (cleanContactForCreation contact groupMap).resourceName = "" ∧
    (cleanContactForCreation contact groupMap).metadata = none ∧
    nonMembershipMetadataFree (cleanContactForCreation contact groupMap) = true ∧
    membershipsWithinSpec contact groupMap = true := by
  refine ⟨rfl, rfl, ?_, ?_⟩
  · simp [nonMembershipMetadataFree, cleanContactForCreation, clearFieldMetadata,
      List.all_map, Function.comp]
  · rw [membershipsWithinSpec, List.all_eq_true]
    intro m' hm'
    rw [cleanContact_memberships, List.mem_filterMap] at hm'
    obtain ⟨m0, h0, hp⟩ := hm'
    rw [processMembership_eq_restoreSpec] at hp
    rcases m0 with ⟨cg0, md0⟩
    cases cg0 with
    | none => exact absurd hp (by simp [membershipRestoreSpec])
    | some cgm0 =>
      rcases cgm0 with ⟨r⟩
      simp only [membershipRestoreSpec] at hp
      by_cases hmy : r = "contactGroups/myContacts"
      · subst hmy
        rw [if_pos rfl] at hp
        obtain rfl := Option.some.inj hp
        apply Bool.or_eq_true_iff.mpr
        left
        apply Bool.and_eq_true_iff.mpr
        constructor
        · simpa using h0
        · simp
      · rw [if_neg hmy] at hp
        cases hug : isUserGroupRef r
        · rw [hug] at hp
          simp at hp
        · rw [hug] at hp
          rw [if_pos rfl] at hp
          cases hlk : List.lookup r groupMap with
          | none =>
            rw [hlk] at hp
            simp at hp
          | some newName =>
            rw [hlk] at hp
            obtain rfl := Option.some.inj hp
            apply Bool.or_eq_true_iff.mpr
            right
            rw [List.any_eq_true]
            refine ⟨(r, newName), lookup_mem hlk, ?_⟩
            apply Bool.and_eq_true_iff.mpr
            constructor
            · simp
            · rw [List.any_eq_true]
              exact ⟨⟨some ⟨r⟩, md0⟩, h0, by simp⟩

/-- Refutation of claim C1 as stated: the sanitized record can carry a
metadata stamp on a field-group entry, because `clearFieldMetadata` never
clears membership metadata and the preserved system membership is copied
verbatim, stamp included. -/
theorem sanitize_C1_counterexample :
    ¬ (∀ (contact : Person) (groupMap : List (String × String)),
        (cleanContactForCreation contact groupMap).resourceName = "" ∧
        allMetadataFree (cleanContactForCreation contact groupMap) = true ∧
        membershipsWithinSpec contact groupMap = true) := by
  intro h
  have := (h stampedSystemContact []).2.1
  exact absurd this (by decide)

theorem parseArr_map (f : Json → Option α) (g : α → Json)
    (hfg : ∀ a, f (g a) = some a) (l : List α) :
    parseArr f (l.map g) = some l := by
  induction l with
  | nil => rfl
  | cons x xs ih => simp [parseArr, hfg, ih]

theorem parseMeta_round (x : Option FieldMetadata) :
    getOpt parseMeta [("metadata", metaToJson x)] "metadata" = some x := by
  cases x with
  | none => rfl
  | some m => rfl

theorem parseName_round (e : Name) : parseName (Name.toJson e) = some e := by
  rcases e with ⟨a, b, c, d, f, g, h, i, m⟩
  cases m with
  | none => rfl
  | some mm => rfl

theorem parseNickname_round (e : Nickname) : parseNickname (Nickname.toJson e) = some e := by
  rcases e with ⟨v, m⟩
  cases m with
  | none => rfl
  | some mm => rfl

theorem parseFileAs_round (e : FileAs) : parseFileAs (FileAs.toJson e) = some e := by
  rcases e with ⟨v, m⟩
  cases m with
  | none => rfl
  | some mm => rfl

theorem parseEmail_round (e : EmailAddress) : parseEmail (EmailAddress.toJson e) = some e := by
  rcases e with ⟨t, v, m⟩
  cases m with
  | none => rfl
  | some mm => rfl

theorem parsePhone_round (e : PhoneNumber) : parsePhone (PhoneNumber.toJson e) = some e := by
  rcases e with ⟨t, v, m⟩
  cases m with
  | none => rfl
  | some mm => rfl

theorem parseAddress_round (e : Address) : parseAddress (Address.toJson e) = some e := by
  rcases e with ⟨a, b, c, d, f, g, h, i, m⟩
  cases m with
  | none => rfl
  | some mm => rfl

theorem parseOrganization_round (e : Organization) :
    parseOrganization (Organization.toJson e) = some e := by
  rcases e with ⟨a, b, c, m⟩
  cases m with
  | none => rfl
  | some mm => rfl

theorem parseBirthday_round (e : Birthday) : parseBirthday (Birthday.toJson e) = some e := by
  rcases e with ⟨d, m⟩
  cases d with
  | none => cases m with
    | none => rfl
    | some mm => rfl
  | some dd => cases m with
    | none => rfl
    | some mm => rfl

theorem parseBiography_round (e : Biography) : parseBiography (Biography.toJson e) = some e := by
  rcases e with ⟨v, m⟩
  cases m with
  | none => rfl
  | some mm => rfl

theorem parseUrl_round (e : Url) : parseUrl (Url.toJson e) = some e := by
  rcases e with ⟨t, v, m⟩
  cases m with
  | none => rfl
  | some mm => rfl

theorem parseUserDefined_round (e : UserDefined) :
    parseUserDefined (UserDefined.toJson e) = some e := by
  rcases e with ⟨k, v, m⟩
  cases m with
  | none => rfl
  | some mm => rfl

theorem parseEvent_round (e : Event) : parseEvent (Event.toJson e) = some e := by
  rcases e with ⟨t, d, m⟩
  cases d with
  | none => cases m with
    | none => rfl
    | some mm => rfl
  | some dd => cases m with
    | none => rfl
    | some mm => rfl

theorem parseRelation_round (e : Relation) : parseRelation (Relation.toJson e) = some e := by
  rcases e with ⟨t, v, m⟩
  cases m with
  | none => rfl
  | some mm => rfl

theorem parseGenericField_round (e : GenericField) :
    parseGenericField (GenericField.toJson e) = some e := by
  rcases e with ⟨v, m⟩
  cases m with
  | none => rfl
  | some mm => rfl

theorem parseMembership_round (e : Membership) :
    parseMembership (Membership.toJson e) = some e := by
  rcases e with ⟨c, m⟩
  cases c with
  | none => cases m with
    | none => rfl
    | some mm => rfl
  | some cc => cases m with
    | none => rfl
    | some mm => rfl

theorem parseContactGroup_round (g : ContactGroup) :
    parseContactGroup (ContactGroup.toJson g) = some g := by
  rcases g with ⟨r, n, t⟩
  rfl

theorem parsePerson_round (p : Person) : parsePerson (Person.toJson p) = some p := by
  rcases p with ⟨rn, md, nas, nis, fas, ems, phs, ads, ors, bds, bis, urs, uds, evs, rls,
    mms, ocs, gds, ims, its, sps, cls, exs, los, lcs, mks, cds, pts⟩
  have h01 := parseArr_map parseName Name.toJson parseName_round nas
  have h02 := parseArr_map parseNickname Nickname.toJson parseNickname_round nis
  have h03 := parseArr_map parseFileAs FileAs.toJson parseFileAs_round fas
  have h04 := parseArr_map parseEmail EmailAddress.toJson parseEmail_round ems
  have h05 := parseArr_map parsePhone PhoneNumber.toJson parsePhone_round phs
  have h06 := parseArr_map parseAddress Address.toJson parseAddress_round ads
  have h07 := parseArr_map parseOrganization Organization.toJson parseOrganization_round ors
  have h08 := parseArr_map parseBirthday Birthday.toJson parseBirthday_round bds
  have h09 := parseArr_map parseBiography Biography.toJson parseBiography_round bis
  have h10 := parseArr_map parseUrl Url.toJson parseUrl_round urs
  have h11 := parseArr_map parseUserDefined UserDefined.toJson parseUserDefined_round uds
  have h12 := parseArr_map parseEvent Event.toJson parseEvent_round evs
  have h13 := parseArr_map parseRelation Relation.toJson parseRelation_round rls
  have h14 := parseArr_map parseMembership Membership.toJson parseMembership_round mms
  have h15 := parseArr_map parseGenericField GenericField.toJson parseGenericField_round ocs
  have h16 := parseArr_map parseGenericField GenericField.toJson parseGenericField_round gds
  have h17 := parseArr_map parseGenericField GenericField.toJson parseGenericField_round ims
  have h18 := parseArr_map parseGenericField GenericField.toJson parseGenericField_round its
  have h19 := parseArr_map parseGenericField GenericField.toJson parseGenericField_round sps
  have h20 := parseArr_map parseGenericField GenericField.toJson parseGenericField_round cls
  have h21 := parseArr_map parseGenericField GenericField.toJson parseGenericField_round exs
  have h22 := parseArr_map parseGenericField GenericField.toJson parseGenericField_round los
  have h23 := parseArr_map parseGenericField GenericField.toJson parseGenericField_round lcs
  have h24 := parseArr_map parseGenericField GenericField.toJson parseGenericField_round mks
  have h25 := parseArr_map parseGenericField GenericField.toJson parseGenericField_round cds
  have h26 := parseArr_map parseGenericField GenericField.toJson parseGenericField_round pts
  cases md with
  | none =>
    simp [parsePerson, Person.toJson, getStr, getInt, getOpt, getList, getArr,
      personMetaToJson, List.lookup, h01, h02, h03, h04, h05, h06, h07, h08, h09, h10,
      h11, h12, h13, h14, h15, h16, h17, h18, h19, h20, h21, h22, h23, h24, h25, h26]
  | some pm =>
    simp [parsePerson, Person.toJson, getStr, getInt, getOpt, getList, getArr,
      personMetaToJson, parsePersonMeta, getBool, List.lookup, h01, h02, h03, h04, h05,
      h06, h07, h08, h09, h10, h11, h12, h13, h14, h15, h16, h17, h18, h19, h20, h21,
      h22, h23, h24, h25, h26]

theorem parseBackup_round (b : BackupFile) : parseBackup (SaveToFile b) = some b := by
  rcases b with ⟨v, ca, cc, gc, cs, gs⟩
  have hc := parseArr_map parsePerson Person.toJson parsePerson_round cs
  have hg := parseArr_map parseContactGroup ContactGroup.toJson parseContactGroup_round gs
  simp [parseBackup, SaveToFile, getStr, getInt, getList, getArr, List.lookup, hc, hg]

/-- Claim C5: loading the structured serialization of a well-formed archive
(non-empty version tag) yields the archive back, field for field. -/
theorem save_load_roundtrip_C5 (b : BackupFile) (hv : b.version ≠ "") :
    LoadBackupFile (some (SaveToFile b)) = Except.ok b := by
  simp [LoadBackupFile, parseBackup_round, hv]

/-- Concrete instance of claim C5: a sample archive with nested entries,
metadata stamps and memberships survives a save/load round trip. -/
theorem save_load_roundtrip_C5_witness :
    LoadBackupFile (some (SaveToFile sampleBackup)) = Except.ok sampleBackup :=
  save_load_roundtrip_C5 sampleBackup (by decide)

/-- Claim C6: `LoadBackupFile` fails exactly when the file cannot be read,
its content does not deserialize, or the deserialized archive has an empty
version tag; a successfully returned archive always carries a non-empty
version. -/
theorem load_validation_C6 (file : Option Json) :
    (((LoadBackupFile file).isOk = false) ↔
      (match file with
       | none => True
       | some j =>
         match parseBackup j with
         | none => True
         | some b => b.version = "")) ∧
    (∀ b, LoadBackupFile file = Except.ok b → b.version ≠ "") := by
  cases file with
  | none =>
    exact ⟨by simp [LoadBackupFile, Except.isOk, Except.toBool], by intro b h; cases h⟩
  | some j =>
    cases hj : parseBackup j with
    | none =>
      constructor
      · simp [LoadBackupFile, hj, Except.isOk, Except.toBool]
      · intro b h
        simp [LoadBackupFile, hj] at h
    | some bk =>
      by_cases hv : bk.version = ""
      · constructor
        · simp [LoadBackupFile, hj, hv, Except.isOk, Except.toBool]
        · intro b h
          simp [LoadBackupFile, hj, hv] at h
      · constructor
        · simp [LoadBackupFile, hj, hv, Except.isOk, Except.toBool]
        · intro b h
          simp only [LoadBackupFile, hj] at h
          rw [if_neg hv] at h
          obtain rfl := Except.ok.inj h
          exact hv

/-- Concrete instance of claim C6: an archive produced by `NewBackupFile`
loads back with a non-empty version tag. -/
theorem load_validation_C6_witness :
    (NewBackupFile "2024-01-01T00:00:00Z").version ≠ "" :=
  (load_validation_C6 (some (SaveToFile (NewBackupFile "2024-01-01T00:00:00Z")))).2
    (NewBackupFile "2024-01-01T00:00:00Z") (by rfl)

end GCB
